import Mathlib

/-!
Shallow embedding of the session state machine of the YC-HACKATHON-WIN backend
(`src/backend/src/controllers/streamController.js`), of the function-call
dispatch of `src/backend/src/services/geminiLive.js` (`handleLiveMessage`),
and of the payment-gate `/execute` route of
`src/backend/src/controllers/transactionController.js` (locus variant).

Monetary amounts and confidences are embedded as exact rationals; the
JavaScript comparisons (`<`, `>`) become the corresponding exact comparisons.
Strings are embedded as Lean strings; `String.prototype.includes` over
lowercased strings becomes `containsChars` over lowercased character lists.
-/

namespace YCHack

/-- Lowercase a list of characters (models `String.prototype.toLowerCase`). -/
def lowerChars (l : List Char) : List Char := l.map Char.toLower

/-- `startsWithChars needle haystack` : `needle` occurs at the head of `haystack`. -/
def startsWithChars : List Char → List Char → Bool
  | [], _ => true
  | _ :: _, [] => false
  | a :: as, b :: bs => a == b && startsWithChars as bs

/-- `containsChars haystack needle` models `haystack.includes(needle)`. -/
def containsChars : List Char → List Char → Bool
  | [], needle => needle.isEmpty
  | h :: t, needle => startsWithChars needle (h :: t) || containsChars t needle

/-- An enrolled person record (`{name, wallet_address}`). -/
structure Person where
  name : String
  wallet_address : String
deriving DecidableEq, Repr

/-- The mutable per-session authorization record `session.currentState`
(`streamController.js`, `handleConnection`). -/
structure CurrentState where
  personIdentified : Bool
  personData : Option Person
  verbalAgreement : Bool
  amount : Option ℚ
  handshakeActive : Bool
  readyForTransaction : Bool
deriving DecidableEq, Repr

/-- A session: enrolled snapshot, authorization state, and the fired flag
(`session.transactionExecuted`). -/
structure Session where
  enrolledPeople : List Person
  currentState : CurrentState
  transactionExecuted : Bool
deriving DecidableEq, Repr

/-- The all-false initial `currentState` set up in `handleConnection`. -/
def initialState : CurrentState :=
  { personIdentified := false
    personData := none
    verbalAgreement := false
    amount := none
    handshakeActive := false
    readyForTransaction := false }

/-- A freshly connected session with a given enrolled snapshot. -/
def freshSession (enrolled : List Person) : Session :=
  { enrolledPeople := enrolled
    currentState := initialState
    transactionExecuted := false }

/-- Arguments of the `identifyPerson` function call. -/
structure IdentifyArgs where
  description : String
  confidence : ℚ
deriving DecidableEq, Repr

/-- Arguments of the `confirmVerbalAgreement` function call. -/
structure VerbalArgs where
  agreed : Bool
  amount : ℚ
  quote : String
  confidence : ℚ
deriving DecidableEq, Repr

/-- Arguments of the `confirmHandshake` function call. -/
structure HandshakeArgs where
  handshake_active : Bool
  description : String
  confidence : ℚ
  stable_duration : ℚ
deriving DecidableEq, Repr

/-- Arguments of the `executeTransaction` function call. -/
structure ExecArgs where
  person_description : String
  amount : ℚ
  verbal_confirmation_quote : String
  handshake_confirmed : Bool
  overall_confidence : ℚ
deriving DecidableEq, Repr

/-- Events emitted over the socket to the UI (`socket.emit(...)`). -/
inductive Emit where
  | statusUpdate (visual audio person : String)
  | personIdentifiedEv (name wallet : String) (confidence : ℚ)
  | personUnknownEv (description : String)
  | verbalConfirmedEv (agreed : Bool) (amount : ℚ) (quote : String) (confidence : ℚ)
  | handshakeConfirmedEv (active : Bool) (description : String) (confidence : ℚ) (duration : ℚ)
  | transactionBlocked (reason : String)
  | transactionReady (recipient : Option Person) (amount : ℚ) (verbalQuote : String) (confidence : ℚ)
  | conditionsMet (person : Option Person) (amount : Option ℚ)
deriving DecidableEq, Repr

/-- Structured function-call responses returned to the Model Peer. -/
inductive FnResponse where
  | acknowledged
  | ackStatus (status : String)
  | identifiedOk (name wallet : String)
  | identifiedNo (message : String)
  | execSuccess (message : String) (recipient : Option Person) (amount : ℚ)
      (verbalQuote : String) (confidence : ℚ)
  | error (msg : String)
deriving DecidableEq, Repr

/-- Does the (lowercased) description contain the person's lowercased name?
Models `lowerDesc.includes(person.name.toLowerCase())`. -/
def nameMatches (description : String) (p : Person) : Bool :=
  containsChars (lowerChars description.toList) (lowerChars p.name.toList)

/-- `findPersonByDescription` (streamController.js lines 386-410): first person
whose name occurs in the description; otherwise the first enrolled person when
the list is non-empty; otherwise `null`. -/
def findPersonByDescription (enrolledPeople : List Person) (description : String) :
    Option Person :=
  match enrolledPeople.find? (fun p => nameMatches description p) with
  | some p => some p
  | none => enrolledPeople.head?

/-- `handleUpdateStatus`: pure pass-through narration. -/
def handleUpdateStatus (s : Session) (visual audio person : String) :
    Session × List Emit × FnResponse :=
  (s, [Emit.statusUpdate visual audio person], FnResponse.acknowledged)

/-- `handleIdentifyPerson` (streamController.js lines 204-241). -/
def handleIdentifyPerson (s : Session) (a : IdentifyArgs) :
    Session × List Emit × FnResponse :=
  match findPersonByDescription s.enrolledPeople a.description with
  | some p =>
      ({ s with currentState :=
            { s.currentState with personIdentified := true, personData := some p } },
       [Emit.personIdentifiedEv p.name p.wallet_address a.confidence],
       FnResponse.identifiedOk p.name p.wallet_address)
  | none =>
      ({ s with currentState :=
            { s.currentState with personIdentified := false, personData := none } },
       [Emit.personUnknownEv a.description],
       FnResponse.identifiedNo "No matching enrolled person found")

/-- `checkTransactionReady` (streamController.js lines 367-381): recompute
`readyForTransaction` and emit `transaction:conditions-met` when ready and not
yet fired. -/
def checkTransactionReady (s : Session) : Session × List Emit :=
  let ready := s.currentState.personIdentified && s.currentState.verbalAgreement &&
      s.currentState.handshakeActive
  let s1 : Session := { s with currentState :=
      { s.currentState with readyForTransaction := ready } }
  if ready && !s.transactionExecuted then
    (s1, [Emit.conditionsMet s1.currentState.personData s1.currentState.amount])
  else
    (s1, [])

/-- `handleConfirmVerbalAgreement` (streamController.js lines 246-268). -/
def handleConfirmVerbalAgreement (s : Session) (a : VerbalArgs) :
    Session × List Emit × FnResponse :=
  let s1 : Session := { s with currentState :=
      { s.currentState with verbalAgreement := a.agreed, amount := some a.amount } }
  let r := checkTransactionReady s1
  (r.1,
   Emit.verbalConfirmedEv a.agreed a.amount a.quote a.confidence :: r.2,
   FnResponse.ackStatus (if a.agreed then "Agreement confirmed" else "Agreement retracted"))

/-- `handleConfirmHandshake` (streamController.js lines 273-294). -/
def handleConfirmHandshake (s : Session) (a : HandshakeArgs) :
    Session × List Emit × FnResponse :=
  let s1 : Session := { s with currentState :=
      { s.currentState with handshakeActive := a.handshake_active } }
  let r := checkTransactionReady s1
  (r.1,
   Emit.handshakeConfirmedEv a.handshake_active a.description a.confidence a.stable_duration :: r.2,
   FnResponse.ackStatus (if a.handshake_active then "Handshake detected" else "Handshake lost"))

/-- `handleExecuteTransaction` (streamController.js lines 299-362): the five
guard checks in source order, then fire. -/
def handleExecuteTransaction (s : Session) (a : ExecArgs) :
    Session × List Emit × FnResponse :=
  if !s.currentState.personIdentified then
    (s, [Emit.transactionBlocked "Person not identified"],
     FnResponse.error "Person must be identified first")
  else if !s.currentState.verbalAgreement then
    (s, [Emit.transactionBlocked "No verbal agreement"],
     FnResponse.error "Verbal agreement required")
  else if !s.currentState.handshakeActive then
    (s, [Emit.transactionBlocked "No active handshake"],
     FnResponse.error "Handshake required")
  else if s.transactionExecuted then
    (s, [Emit.transactionBlocked "Transaction already executed"],
     FnResponse.error "Transaction already executed for this session")
  else if a.overall_confidence < mkRat 7 10 then
    (s, [Emit.transactionBlocked "Confidence too low"],
     FnResponse.error "Confidence too low for transaction")
  else
    let s1 : Session := { s with currentState :=
        { s.currentState with readyForTransaction := true } }
    let s2 : Session := { s1 with transactionExecuted := true }
    (s2,
     [Emit.transactionReady s.currentState.personData a.amount
        a.verbal_confirmation_quote a.overall_confidence],
     FnResponse.execSuccess "Transaction prepared and ready for user confirmation"
        s.currentState.personData a.amount a.verbal_confirmation_quote a.overall_confidence)

/-- A function call dispatched by `handleFunctionCall` (streamController.js
lines 158-186), including the unknown-name default branch. -/
inductive Event where
  | updateStatus (visual audio person : String)
  | identifyPerson (args : IdentifyArgs)
  | confirmVerbalAgreement (args : VerbalArgs)
  | confirmHandshake (args : HandshakeArgs)
  | executeTransaction (args : ExecArgs)
  | unknownFunction (name : String)
deriving DecidableEq, Repr

/-- `handleFunctionCall`: the switch over function names. -/
def handleFunctionCall (s : Session) (e : Event) : Session × List Emit × FnResponse :=
  match e with
  | Event.updateStatus v a p => handleUpdateStatus s v a p
  | Event.identifyPerson a => handleIdentifyPerson s a
  | Event.confirmVerbalAgreement a => handleConfirmVerbalAgreement s a
  | Event.confirmHandshake a => handleConfirmHandshake s a
  | Event.executeTransaction a => handleExecuteTransaction s a
  | Event.unknownFunction _ => (s, [], FnResponse.error "Unknown function")

/-- Run a sequence of function-call events, accumulating the emitted trace. -/
def runEvents (s : Session) : List Event → Session × List Emit
  | [] => (s, [])
  | e :: es =>
      let r := handleFunctionCall s e
      let rest := runEvents r.1 es
      (rest.1, r.2.1 ++ rest.2)

/-- Is this emit a `transaction:ready` event? -/
def isTransactionReadyEmit : Emit → Bool
  | Emit.transactionReady _ _ _ _ => true
  | _ => false

/-- Is this emit a `transaction:conditions-met` event? -/
def isConditionsMetEmit : Emit → Bool
  | Emit.conditionsMet _ _ => true
  | _ => false

/-- Is this emit a `person:unknown` event? -/
def isPersonUnknownEmit : Emit → Bool
  | Emit.personUnknownEv _ => true
  | _ => false

/-- Number of `transaction:ready` emissions in a trace. -/
def countReadyEmits (tr : List Emit) : Nat := tr.countP isTransactionReadyEmit

/-- Number of `transaction:conditions-met` emissions in a trace. -/
def countConditionsMet (tr : List Emit) : Nat := tr.countP isConditionsMetEmit

/-- Number of steps along a run at which `transactionExecuted` flips from
false to true. -/
def countFires : Session → List Event → Nat
  | _, [] => 0
  | s, e :: es =>
      let s1 := (handleFunctionCall s e).1
      (if s.transactionExecuted = false ∧ s1.transactionExecuted = true then 1 else 0) +
        countFires s1 es

/-- `handleLiveMessage` (geminiLive.js lines 435-479), restricted to its
function-call handling: it reads `message.toolCall.functionCalls[0]` only,
dispatches it, and sends back exactly one `functionResponse`. -/
def handleLiveMessage (s : Session) (functionCalls : List Event) :
    Session × List Emit × List FnResponse :=
  match functionCalls with
  | [] => (s, [], [])
  | c :: _ =>
      let r := handleFunctionCall s c
      (r.1, r.2.1, [r.2.2])

/-- The body of a `POST /api/transaction/execute` request at the payment gate
(locus variant of transactionController.js). `none` models an absent field. -/
structure ExecRequest where
  amount : Option ℚ
  to_wallet : Option String
  to_person_id : Option String
  to_name : Option String
deriving DecidableEq, Repr

/-- JavaScript truthiness of the `amount` field (`!amount`): absent or zero is
falsy. -/
def truthyAmount : Option ℚ → Bool
  | none => false
  | some q => !(q == 0)

/-- JavaScript truthiness of an optional string field: absent or empty is
falsy. -/
def truthyStr : Option String → Bool
  | none => false
  | some st => !st.isEmpty

/-- `MAX_TRANSACTION_AMOUNT` (transactionController.js, locus variant): $0.10. -/
def MAX_TRANSACTION_AMOUNT : ℚ := mkRat 1 10

/-- `MIN_TRANSACTION_AMOUNT` (transactionController.js, locus variant): $0.01. -/
def MIN_TRANSACTION_AMOUNT : ℚ := mkRat 1 100

/-- The error responses the gate can return before attempting a payment.
`amountTooHigh`/`amountTooLow` carry the violated bound, mirroring the
`maxAmount`/`minAmount` fields of the JSON error body. -/
inductive GateReject where
  | amountRequired
  | recipientRequired
  | amountTooHigh (maxAmount requestedAmount : ℚ)
  | amountTooLow (minAmount requestedAmount : ℚ)
  | walletMissing
deriving DecidableEq, Repr

/-- Outcome of the gate's validation: either an early rejection, or the call
proceeds to the Payment Executor (`locus.sendPayment` / fallback
`cryptoService.sendTransaction`) with the given wallet and amount. -/
inductive GateDecision where
  | reject (e : GateReject)
  | proceed (wallet : String) (amount : ℚ)
deriving DecidableEq, Repr

/-- The validation sequence of the locus-variant `/execute` route
(transactionController.js lines 290-349), up to the point where the external
Payment Executor is invoked. -/
def paymentGateDecision (r : ExecRequest) : GateDecision :=
  if !truthyAmount r.amount then
    GateDecision.reject GateReject.amountRequired
  else if !truthyStr r.to_wallet && !truthyStr r.to_person_id then
    GateDecision.reject GateReject.recipientRequired
  else if r.amount.getD 0 > MAX_TRANSACTION_AMOUNT then
    GateDecision.reject (GateReject.amountTooHigh MAX_TRANSACTION_AMOUNT (r.amount.getD 0))
  else if r.amount.getD 0 < MIN_TRANSACTION_AMOUNT then
    GateDecision.reject (GateReject.amountTooLow MIN_TRANSACTION_AMOUNT (r.amount.getD 0))
  else
    match r.to_wallet with
    | none => GateDecision.reject GateReject.walletMissing
    | some w =>
        if w.isEmpty then GateDecision.reject GateReject.walletMissing
        else GateDecision.proceed w (r.amount.getD 0)

/-- A sample enrolled person used in concrete runs. -/
def alice : Person := { name := "alice", wallet_address := "0xAAA" }

/-- A second sample enrolled person. -/
def bobp : Person := { name := "bob", wallet_address := "0xBBB" }

/-- Is this emit a `transaction:blocked` event? -/
def isBlockedEmit : Emit → Bool
  | Emit.transactionBlocked _ => true
  | _ => false

/-- The readiness conjunction computed by `checkTransactionReady`. -/
def readyB (s : Session) : Bool :=
  s.currentState.personIdentified && s.currentState.verbalAgreement &&
    s.currentState.handshakeActive

/-- Does `handleExecuteTransaction` pass all five guards on this input? -/
def execAcceptedB (s : Session) (a : ExecArgs) : Bool :=
  readyB s && !s.transactionExecuted && !(decide (a.overall_confidence < mkRat 7 10))

/-- Does this event fire the transaction from this session state? -/
def firesB (s : Session) (e : Event) : Bool :=
  match e with
  | Event.executeTransaction a => execAcceptedB s a
  | _ => false

/-- The session after `handleConfirmVerbalAgreement` (derived shape, proved
equal to the handler's first component below). -/
def afterVerbal (s : Session) (a : VerbalArgs) : Session :=
  { s with currentState :=
      { s.currentState with
          verbalAgreement := a.agreed
          amount := some a.amount
          readyForTransaction :=
            s.currentState.personIdentified && a.agreed && s.currentState.handshakeActive } }

/-- The session after `handleConfirmHandshake` (derived shape). -/
def afterHandshake (s : Session) (a : HandshakeArgs) : Session :=
  { s with currentState :=
      { s.currentState with
          handshakeActive := a.handshake_active
          readyForTransaction :=
            s.currentState.personIdentified && s.currentState.verbalAgreement &&
              a.handshake_active } }

/-- The session after a successful fire (derived shape). -/
def afterFire (s : Session) : Session :=
  { s with
      currentState := { s.currentState with readyForTransaction := true }
      transactionExecuted := true }

/-- Reachability invariant: with an empty enrolled snapshot no person can ever
be identified. -/
def sessionInv (s : Session) : Prop :=
  s.enrolledPeople = [] →
    s.currentState.personIdentified = false ∧ s.currentState.personData = none

/-- Sample `identifyPerson` arguments whose description contains "alice". -/
def aIdAlice : IdentifyArgs := { description := "alice is here", confidence := mkRat 9 10 }

/-- Sample `identifyPerson` arguments matching no enrolled name. -/
def aIdCarol : IdentifyArgs := { description := "carol", confidence := mkRat 8 10 }

/-- Sample verbal agreement (agreed, $0.05). -/
def aVerbalYes : VerbalArgs :=
  { agreed := true, amount := mkRat 1 20, quote := "yes deal", confidence := mkRat 9 10 }

/-- Sample verbal retraction. -/
def aVerbalNo : VerbalArgs :=
  { agreed := false, amount := 0, quote := "changed my mind", confidence := mkRat 9 10 }

/-- Sample active handshake confirmation. -/
def aShakeYes : HandshakeArgs :=
  { handshake_active := true, description := "clasped", confidence := mkRat 9 10,
    stable_duration := 2 }

/-- Sample executeTransaction arguments (in-bounds amount, high confidence). -/
def aExecStd : ExecArgs :=
  { person_description := "alice", amount := mkRat 1 20,
    verbal_confirmation_quote := "yes deal", handshake_confirmed := true,
    overall_confidence := mkRat 9 10 }

/-- ExecuteTransaction arguments with an out-of-bounds amount ($5.00). -/
def aExecBig : ExecArgs := { aExecStd with amount := 5 }

/-- ExecuteTransaction arguments with low confidence (0.5). -/
def aExecLowConf : ExecArgs := { aExecStd with overall_confidence := mkRat 1 2 }

/-- Sample events. -/
def evIdentifyAlice : Event := Event.identifyPerson aIdAlice

/-- Verbal-agreement event. -/
def evVerbalYes : Event := Event.confirmVerbalAgreement aVerbalYes

/-- Verbal-retraction event. -/
def evVerbalNo : Event := Event.confirmVerbalAgreement aVerbalNo

/-- Handshake-active event. -/
def evHandshakeYes : Event := Event.confirmHandshake aShakeYes

/-- ExecuteTransaction event (standard arguments). -/
def evExecStd : Event := Event.executeTransaction aExecStd

/-- Session after identify + verbal + handshake on a fresh session with alice
enrolled: all three conditions hold, not yet fired. -/
def sReadyDemo : Session :=
  (runEvents (freshSession [alice]) [evIdentifyAlice, evVerbalYes, evHandshakeYes]).1

/-- Session after additionally firing once. -/
def sFiredDemo : Session :=
  (runEvents (freshSession [alice])
    [evIdentifyAlice, evVerbalYes, evHandshakeYes, evExecStd]).1

/-- Session after firing and then retracting the verbal agreement. -/
def sFiredRetracted : Session :=
  (runEvents (freshSession [alice])
    [evIdentifyAlice, evVerbalYes, evHandshakeYes, evExecStd, evVerbalNo]).1

/-- Session with person identified and verbal agreement but no handshake. -/
def sNoHandshake : Session :=
  { enrolledPeople := [alice]
    currentState :=
      { personIdentified := true
        personData := some alice
        verbalAgreement := true
        amount := some (mkRat 1 20)
        handshakeActive := false
        readyForTransaction := false }
    transactionExecuted := false }

/-- Gate request with `amount = 0` (below the minimum, but JS-falsy). -/
def reqZeroAmount : ExecRequest :=
  { amount := some 0, to_wallet := some "0xBBB", to_person_id := none, to_name := some "bob" }

/-- Gate request with amount $5.00 (above the maximum). -/
def reqBigAmount : ExecRequest :=
  { amount := some 5, to_wallet := some "0xBBB", to_person_id := none, to_name := none }

/-! Handler characterization lemmas. -/

lemma identify_eq_found (s : Session) (a : IdentifyArgs) (p : Person)
    (hf : findPersonByDescription s.enrolledPeople a.description = some p) :
    handleIdentifyPerson s a =
      ({ s with currentState :=
            { s.currentState with personIdentified := true, personData := some p } },
       [Emit.personIdentifiedEv p.name p.wallet_address a.confidence],
       FnResponse.identifiedOk p.name p.wallet_address) := by
  unfold handleIdentifyPerson
  rw [hf]

lemma identify_eq_none (s : Session) (a : IdentifyArgs)
    (hf : findPersonByDescription s.enrolledPeople a.description = none) :
    handleIdentifyPerson s a =
      ({ s with currentState :=
            { s.currentState with personIdentified := false, personData := none } },
       [Emit.personUnknownEv a.description],
       FnResponse.identifiedNo "No matching enrolled person found") := by
  unfold handleIdentifyPerson
  rw [hf]

lemma verbal_eq (s : Session) (a : VerbalArgs) :
    handleConfirmVerbalAgreement s a =
      (afterVerbal s a,
       Emit.verbalConfirmedEv a.agreed a.amount a.quote a.confidence ::
         (if (s.currentState.personIdentified && a.agreed &&
              s.currentState.handshakeActive && !s.transactionExecuted) = true then
            [Emit.conditionsMet s.currentState.personData (some a.amount)]
          else []),
       FnResponse.ackStatus
         (if a.agreed then "Agreement confirmed" else "Agreement retracted")) := by
  rcases s with ⟨en, ⟨pid, pd, va, am, hs, rd⟩, fired⟩
  rcases a with ⟨ag, amt, q, cf⟩
  cases pid <;> cases ag <;> cases hs <;> cases fired <;> rfl

lemma handshake_eq (s : Session) (a : HandshakeArgs) :
    handleConfirmHandshake s a =
      (afterHandshake s a,
       Emit.handshakeConfirmedEv a.handshake_active a.description a.confidence
           a.stable_duration ::
         (if (s.currentState.personIdentified && s.currentState.verbalAgreement &&
              a.handshake_active && !s.transactionExecuted) = true then
            [Emit.conditionsMet s.currentState.personData s.currentState.amount]
          else []),
       FnResponse.ackStatus
         (if a.handshake_active then "Handshake detected" else "Handshake lost")) := by
  rcases s with ⟨en, ⟨pid, pd, va, am, hs, rd⟩, fired⟩
  rcases a with ⟨ha, d, cf, sd⟩
  cases pid <;> cases va <;> cases ha <;> cases fired <;> rfl

lemma exec_eq_accepted (s : Session) (a : ExecArgs) (h : execAcceptedB s a = true) :
    handleExecuteTransaction s a =
      (afterFire s,
       [Emit.transactionReady s.currentState.personData a.amount
          a.verbal_confirmation_quote a.overall_confidence],
       FnResponse.execSuccess "Transaction prepared and ready for user confirmation"
          s.currentState.personData a.amount a.verbal_confirmation_quote
          a.overall_confidence) := by
  rcases s with ⟨en, ⟨pid, pd, va, am, hs, rd⟩, fired⟩
  simp only [execAcceptedB, readyB, Bool.and_eq_true, Bool.not_eq_true',
    decide_eq_false_iff_not] at h
  obtain ⟨⟨⟨⟨hpid, hva⟩, hhs⟩, hfired⟩, hconf⟩ := h
  subst hpid; subst hva; subst hhs; subst hfired
  simp [handleExecuteTransaction, afterFire, hconf]

lemma exec_eq_rejected (s : Session) (a : ExecArgs) (h : execAcceptedB s a = false) :
    (handleExecuteTransaction s a).1 = s ∧
    (∃ r m, (handleExecuteTransaction s a).2 =
        ([Emit.transactionBlocked r], FnResponse.error m)) := by
  rcases s with ⟨en, ⟨pid, pd, va, am, hs, rd⟩, fired⟩
  by_cases hc : a.overall_confidence < mkRat 7 10 <;>
    cases pid <;> cases va <;> cases hs <;> cases fired <;>
      first
        | (exact ⟨rfl, ⟨_, _, rfl⟩⟩)
        | (simp [execAcceptedB, readyB, hc] at h; done)
        | (refine ⟨?_, "Confidence too low", "Confidence too low for transaction", ?_⟩ <;>
            simp [handleExecuteTransaction, hc])

lemma exec_fst (s : Session) (a : ExecArgs) :
    (handleExecuteTransaction s a).1 =
      if execAcceptedB s a = true then afterFire s else s := by
  cases hA : execAcceptedB s a
  · simp [(exec_eq_rejected s a hA).1]
  · simp [exec_eq_accepted s a hA]

lemma step_fired (s : Session) (e : Event) :
    ((handleFunctionCall s e).1).transactionExecuted =
      (s.transactionExecuted || firesB s e) := by
  cases e with
  | updateStatus v a p => simp [handleFunctionCall, handleUpdateStatus, firesB]
  | identifyPerson a =>
      simp only [handleFunctionCall]
      cases hf : findPersonByDescription s.enrolledPeople a.description
      · rw [identify_eq_none s a hf]; simp [firesB]
      · rw [identify_eq_found s a _ hf]; simp [firesB]
  | confirmVerbalAgreement a =>
      simp [handleFunctionCall, verbal_eq, afterVerbal, firesB]
  | confirmHandshake a =>
      simp [handleFunctionCall, handshake_eq, afterHandshake, firesB]
  | executeTransaction a =>
      simp only [handleFunctionCall, firesB]
      rw [exec_fst]
      cases hA : execAcceptedB s a <;> simp [afterFire, hA]
  | unknownFunction n => simp [handleFunctionCall, firesB]

lemma fires_not_fired (s : Session) (e : Event) (h : firesB s e = true) :
    s.transactionExecuted = false := by
  cases e <;> simp_all [firesB, execAcceptedB, readyB]

lemma run_fired_of_fired (s : Session) (l : List Event)
    (h : s.transactionExecuted = true) :
    countFires s l = 0 ∧ ((runEvents s l).1).transactionExecuted = true := by
  induction l generalizing s with
  | nil => exact ⟨rfl, h⟩
  | cons e es ih =>
      have h1 : ((handleFunctionCall s e).1).transactionExecuted = true := by
        rw [step_fired, h]; rfl
      obtain ⟨ihc, ihf⟩ := ih _ h1
      refine ⟨?_, ?_⟩
      · simp [countFires, h, ihc]
      · simpa [runEvents] using ihf

lemma countFires_le_one (s : Session) (l : List Event) : countFires s l ≤ 1 := by
  induction l generalizing s with
  | nil => simp [countFires]
  | cons e es ih =>
      cases hF : s.transactionExecuted
      · cases h1 : ((handleFunctionCall s e).1).transactionExecuted
        · have := ih (handleFunctionCall s e).1
          simp [countFires, h1, this]
        · have := (run_fired_of_fired (handleFunctionCall s e).1 es h1).1
          simp [countFires, hF, h1, this]
      · have := (run_fired_of_fired s (e :: es) hF).1
        simp [this]

lemma countReadyEmits_append (l1 l2 : List Emit) :
    countReadyEmits (l1 ++ l2) = countReadyEmits l1 + countReadyEmits l2 :=
  List.countP_append _ _ _

lemma step_ready_count (s : Session) (e : Event) :
    countReadyEmits (handleFunctionCall s e).2.1 =
      (if firesB s e = true then 1 else 0) := by
  cases e with
  | updateStatus v a p => rfl
  | identifyPerson a =>
      simp only [handleFunctionCall]
      cases hf : findPersonByDescription s.enrolledPeople a.description
      · rw [identify_eq_none s a hf]; rfl
      · rw [identify_eq_found s a _ hf]; rfl
  | confirmVerbalAgreement a =>
      simp only [handleFunctionCall, verbal_eq, firesB]
      split <;> rfl
  | confirmHandshake a =>
      simp only [handleFunctionCall, handshake_eq, firesB]
      split <;> rfl
  | executeTransaction a =>
      cases hA : execAcceptedB s a
      · obtain ⟨-, r, m, h2⟩ := exec_eq_rejected s a hA
        simp only [handleFunctionCall, firesB]
        rw [h2, if_neg (by simp [hA])]
        rfl
      · simp only [handleFunctionCall, firesB]
        rw [exec_eq_accepted s a hA, if_pos hA]
        rfl
  | unknownFunction n => rfl

lemma countConditionsMet_append (l1 l2 : List Emit) :
    countConditionsMet (l1 ++ l2) = countConditionsMet l1 + countConditionsMet l2 :=
  List.countP_append _ _ _

lemma find_nil (d : String) : findPersonByDescription [] d = none := rfl

lemma find_none_imp_nil (l : List Person) (d : String)
    (h : findPersonByDescription l d = none) : l = [] := by
  cases l with
  | nil => rfl
  | cons p t =>
      exfalso
      unfold findPersonByDescription at h
      cases hf : (p :: t).find? (fun q => nameMatches d q) with
      | some q => rw [hf] at h; simp at h
      | none => rw [hf] at h; simp at h

lemma step_enrolled (s : Session) (e : Event) :
    ((handleFunctionCall s e).1).enrolledPeople = s.enrolledPeople := by
  cases e with
  | updateStatus v a p => rfl
  | identifyPerson a =>
      simp only [handleFunctionCall]
      cases hf : findPersonByDescription s.enrolledPeople a.description
      · rw [identify_eq_none s a hf]
      · rw [identify_eq_found s a _ hf]
  | confirmVerbalAgreement a =>
      simp only [handleFunctionCall, verbal_eq]
      rfl
  | confirmHandshake a =>
      simp only [handleFunctionCall, handshake_eq]
      rfl
  | executeTransaction a =>
      simp only [handleFunctionCall]
      rw [exec_fst]
      split <;> rfl
  | unknownFunction n => rfl

lemma run_enrolled (s : Session) (l : List Event) :
    ((runEvents s l).1).enrolledPeople = s.enrolledPeople := by
  induction l generalizing s with
  | nil => rfl
  | cons e es ih =>
      have h0 : (runEvents s (e :: es)).1 = (runEvents (handleFunctionCall s e).1 es).1 := rfl
      rw [h0, ih, step_enrolled]

lemma step_inv (s : Session) (e : Event) (h : sessionInv s) :
    sessionInv (handleFunctionCall s e).1 := by
  intro hnil
  rw [step_enrolled] at hnil
  have hx := h hnil
  cases e with
  | updateStatus v a p => exact hx
  | identifyPerson a =>
      have hf : findPersonByDescription s.enrolledPeople a.description = none := by
        rw [hnil]; rfl
      simp only [handleFunctionCall]
      rw [identify_eq_none s a hf]
      exact ⟨rfl, rfl⟩
  | confirmVerbalAgreement a =>
      simp only [handleFunctionCall, verbal_eq]
      exact hx
  | confirmHandshake a =>
      simp only [handleFunctionCall, handshake_eq]
      exact hx
  | executeTransaction a =>
      simp only [handleFunctionCall]
      rw [exec_fst]
      split
      · exact hx
      · exact hx
  | unknownFunction n => exact hx

lemma run_inv (s : Session) (l : List Event) (h : sessionInv s) :
    sessionInv (runEvents s l).1 := by
  induction l generalizing s with
  | nil => exact h
  | cons e es ih => exact ih _ (step_inv s e h)

lemma session_update_pid_pd_self (s : Session)
    (h1 : s.currentState.personIdentified = false)
    (h2 : s.currentState.personData = none) :
    ({ s with currentState :=
        { s.currentState with personIdentified := false, personData := none } }) = s := by
  rcases s with ⟨en, ⟨pid, pd, va, am, hsA, rd⟩, fired⟩
  simp only at h1 h2
  subst h1; subst h2
  rfl

lemma run_ready_eq_fires (s : Session) (l : List Event) :
    countReadyEmits (runEvents s l).2 = countFires s l := by
  induction l generalizing s with
  | nil => rfl
  | cons e es ih =>
      simp only [runEvents, countFires]
      rw [countReadyEmits_append, step_ready_count, ih]
      congr 1
      cases hfb : firesB s e
      · have h1 := step_fired s e
        rw [hfb] at h1
        simp only [Bool.or_false] at h1
        rw [h1]
        cases hF : s.transactionExecuted <;> simp
      · have h0 := fires_not_fired s e hfb
        have h1 := step_fired s e
        rw [hfb, h0] at h1
        simp only [Bool.false_or] at h1
        simp [h0, h1]

lemma find?_none_of_all_false (l : List Person) (f : Person → Bool)
    (h : ∀ p ∈ l, f p = false) : l.find? f = none := by
  induction l with
  | nil => rfl
  | cons p t ih =>
      have hp := h p (List.mem_cons_self p t)
      have hstep : (p :: t).find? f = t.find? f := by
        simp only [List.find?]
        rw [hp]
      rw [hstep]
      exact ih (fun q hq => h q (List.mem_cons_of_mem p hq))

lemma handshake_step_ready (s : Session) (aH : HandshakeArgs)
    (hP : s.currentState.personIdentified = true)
    (hV : s.currentState.verbalAgreement = true)
    (hF : s.transactionExecuted = false)
    (hA : aH.handshake_active = true) :
    handleConfirmHandshake s aH =
      (afterHandshake s aH,
       [Emit.handshakeConfirmedEv aH.handshake_active aH.description aH.confidence
          aH.stable_duration,
        Emit.conditionsMet s.currentState.personData s.currentState.amount],
       FnResponse.ackStatus "Handshake detected") := by
  rw [handshake_eq]
  simp [hP, hV, hA, hF]

/-! Claim theorems. -/

/-- C1 (amended): along any function-call sequence a session's `transactionExecuted`
flips false→true at most once and `transaction:ready` is emitted exactly as often
as the flag flips (hence at most once); once fired, every further
`executeTransaction` call leaves the session unchanged and is rejected with a
single `transaction:blocked` event and an error response — with reason
"Transaction already executed" whenever the person/verbal/handshake checks still
pass — and `checkTransactionReady` emits no further `transaction:conditions-met`. -/
theorem execute_fires_at_most_once (s : Session) (l : List Event) (a : ExecArgs) :
    countFires s l ≤ 1
    ∧ countReadyEmits (runEvents s l).2 = countFires s l
    ∧ (s.transactionExecuted = true →
        (handleExecuteTransaction s a).1 = s
        ∧ (∃ r m, (handleExecuteTransaction s a).2 =
            ([Emit.transactionBlocked r], FnResponse.error m)))
    ∧ (s.transactionExecuted = true → s.currentState.personIdentified = true →
        s.currentState.verbalAgreement = true → s.currentState.handshakeActive = true →
        handleExecuteTransaction s a =
          (s, [Emit.transactionBlocked "Transaction already executed"],
           FnResponse.error "Transaction already executed for this session"))
    ∧ (s.transactionExecuted = true → (checkTransactionReady s).2 = []) := by
  refine ⟨countFires_le_one s l, run_ready_eq_fires s l, ?_, ?_, ?_⟩
  · intro h
    have hA : execAcceptedB s a = false := by
      simp [execAcceptedB, readyB, h]
    exact exec_eq_rejected s a hA
  · intro h h1 h2 h3
    simp [handleExecuteTransaction, h, h1, h2, h3]
  · intro h
    simp [checkTransactionReady, h]

/-- Witness for C1 at a concretely fired session. -/
theorem execute_fires_at_most_once_witness :
    sFiredDemo.transactionExecuted = true
    ∧ handleExecuteTransaction sFiredDemo aExecStd =
        (sFiredDemo, [Emit.transactionBlocked "Transaction already executed"],
         FnResponse.error "Transaction already executed for this session")
    ∧ (checkTransactionReady sFiredDemo).2 = [] := by
  refine ⟨by decide, ?_, ?_⟩
  · exact (execute_fires_at_most_once sFiredDemo [] aExecStd).2.2.2.1 (by decide) (by decide)
      (by decide) (by decide)
  · exact (execute_fires_at_most_once sFiredDemo [] aExecStd).2.2.2.2 (by decide)

/-- C1 counterexample: after firing and a verbal retraction, a further
`executeTransaction` call is rejected with reason "No verbal agreement", not the
already-executed reason the claim requires for every post-fire call. -/
theorem execute_after_fired_wrong_reason_cex :
    sFiredRetracted.transactionExecuted = true
    ∧ (handleExecuteTransaction sFiredRetracted aExecStd).2.1 =
        [Emit.transactionBlocked "No verbal agreement"]
    ∧ ("No verbal agreement" ≠ "Transaction already executed") := by decide

/-- C2: an `identifyPerson` call on a reachable session whose description does
not resolve leaves the session exactly unchanged, emits `person:unknown` (and
not `person:identified`), and responds with the not-identified message. -/
theorem unresolved_identify_state_unchanged (enrolled : List Person) (l : List Event)
    (s : Session) (a : IdentifyArgs)
    (hreach : s = (runEvents (freshSession enrolled) l).1)
    (h : findPersonByDescription s.enrolledPeople a.description = none) :
    handleIdentifyPerson s a =
      (s, [Emit.personUnknownEv a.description],
       FnResponse.identifiedNo "No matching enrolled person found") := by
  have hinv : sessionInv s := by
    rw [hreach]
    exact run_inv _ _ (fun _ => ⟨rfl, rfl⟩)
  obtain ⟨h1, h2⟩ := hinv (find_none_imp_nil _ _ h)
  rw [identify_eq_none s a h, session_update_pid_pd_self s h1 h2]

/-- Witness for C2 on a session with an empty enrolled snapshot. -/
theorem unresolved_identify_state_unchanged_witness :
    findPersonByDescription ((runEvents (freshSession []) []).1).enrolledPeople "bob" = none
    ∧ handleIdentifyPerson ((runEvents (freshSession []) []).1)
        { description := "bob", confidence := 1 } =
        ((runEvents (freshSession []) []).1, [Emit.personUnknownEv "bob"],
         FnResponse.identifiedNo "No matching enrolled person found") :=
  ⟨rfl, unresolved_identify_state_unchanged [] [] _
    { description := "bob", confidence := 1 } rfl rfl⟩

/-- C4 counterexample: with all three conditions met, not yet fired, and high
confidence, an `executeTransaction` call whose amount $5.00 exceeds the policy
maximum $0.10 is accepted by the state machine (transaction:ready emitted, no
transaction:blocked), instead of being rejected with a bounds reason. -/
theorem exec_no_amount_bounds_cex :
    (5:ℚ) > MAX_TRANSACTION_AMOUNT
    ∧ (handleExecuteTransaction sReadyDemo aExecBig).2.2 =
        FnResponse.execSuccess "Transaction prepared and ready for user confirmation"
          (some alice) 5 "yes deal" (mkRat 9 10)
    ∧ (handleExecuteTransaction sReadyDemo aExecBig).2.1 =
        [Emit.transactionReady (some alice) 5 "yes deal" (mkRat 9 10)]
    ∧ ((handleExecuteTransaction sReadyDemo aExecBig).1).transactionExecuted = true := by
  decide

/-- C4 (amended): `handleExecuteTransaction` performs no amount-bounds
validation: whenever the five guards (person, verbal, handshake, not fired,
confidence) pass, the request is accepted for every amount — including amounts
outside the policy bounds — and no `transaction:blocked` event is emitted. -/
theorem exec_accepts_any_amount (s : Session) (a : ExecArgs)
    (h1 : s.currentState.personIdentified = true)
    (h2 : s.currentState.verbalAgreement = true)
    (h3 : s.currentState.handshakeActive = true)
    (h4 : s.transactionExecuted = false)
    (h5 : ¬ a.overall_confidence < mkRat 7 10) :
    handleExecuteTransaction s a =
      (afterFire s,
       [Emit.transactionReady s.currentState.personData a.amount
          a.verbal_confirmation_quote a.overall_confidence],
       FnResponse.execSuccess "Transaction prepared and ready for user confirmation"
          s.currentState.personData a.amount a.verbal_confirmation_quote
          a.overall_confidence)
    ∧ (handleExecuteTransaction s a).2.1.countP isBlockedEmit = 0 := by
  have hA : execAcceptedB s a = true := by
    simp [execAcceptedB, readyB, h1, h2, h3, h4, h5]
  rw [exec_eq_accepted s a hA]
  exact ⟨rfl, rfl⟩

/-- Witness for the amended C4 with the out-of-bounds amount $5.00. -/
theorem exec_accepts_any_amount_witness :
    (5:ℚ) > MAX_TRANSACTION_AMOUNT
    ∧ (handleExecuteTransaction sReadyDemo aExecBig).2.1.countP isBlockedEmit = 0
    ∧ ((handleExecuteTransaction sReadyDemo aExecBig).1).transactionExecuted = true := by
  have h := exec_accepts_any_amount sReadyDemo aExecBig (by decide) (by decide) (by decide)
    (by decide) (by decide)
  refine ⟨by decide, h.2, ?_⟩
  rw [h.1]
  rfl

/-- C6 (amended): the outcome of `handleExecuteTransaction` (new state, emitted
events and response) never depends on the caller's `handshake_confirmed`
argument; and a call with `handshake_confirmed = true` is rejected with reason
"No active handshake" whenever the session's own `handshakeActive` is false and
the person-identified and verbal-agreement checks pass. -/
theorem exec_ignores_caller_handshake_flag (s : Session) (a : ExecArgs) (b1 b2 : Bool) :
    handleExecuteTransaction s { a with handshake_confirmed := b1 } =
      handleExecuteTransaction s { a with handshake_confirmed := b2 }
    ∧ (s.currentState.personIdentified = true → s.currentState.verbalAgreement = true →
        s.currentState.handshakeActive = false →
        handleExecuteTransaction s { a with handshake_confirmed := true } =
          (s, [Emit.transactionBlocked "No active handshake"],
           FnResponse.error "Handshake required")) := by
  constructor
  · rfl
  · intro h1 h2 h3
    simp [handleExecuteTransaction, h1, h2, h3]

/-- Witness for C6 at a session with no active handshake. -/
theorem exec_ignores_caller_handshake_flag_witness :
    handleExecuteTransaction sNoHandshake { aExecStd with handshake_confirmed := true } =
      handleExecuteTransaction sNoHandshake { aExecStd with handshake_confirmed := false }
    ∧ handleExecuteTransaction sNoHandshake { aExecStd with handshake_confirmed := true } =
        (sNoHandshake, [Emit.transactionBlocked "No active handshake"],
         FnResponse.error "Handshake required") := by
  have h := exec_ignores_caller_handshake_flag sNoHandshake aExecStd true false
  exact ⟨h.1, h.2 (by decide) (by decide) (by decide)⟩

/-- C6 counterexample: with the person not identified (and handshake inactive),
a call carrying `handshake_confirmed = true` is rejected with reason
"Person not identified", not the "No active handshake" reason the claim
requires whenever `handshakeActive` is false. -/
theorem exec_wrong_reason_cex :
    aExecStd.handshake_confirmed = true
    ∧ (freshSession [alice]).currentState.handshakeActive = false
    ∧ (handleExecuteTransaction (freshSession [alice]) aExecStd).2.1 =
        [Emit.transactionBlocked "Person not identified"]
    ∧ ("Person not identified" ≠ "No active handshake") := by decide

/-- C7: with all three conditions met and not yet fired, a request with
confidence below 0.70 is rejected with reason "Confidence too low" and the
session is left exactly unchanged; a later request on the same state with
confidence at least 0.70 fires. -/
theorem confidence_threshold_atomic (s : Session) (a : ExecArgs)
    (h1 : s.currentState.personIdentified = true)
    (h2 : s.currentState.verbalAgreement = true)
    (h3 : s.currentState.handshakeActive = true)
    (h4 : s.transactionExecuted = false) :
    (a.overall_confidence < mkRat 7 10 →
      handleExecuteTransaction s a =
        (s, [Emit.transactionBlocked "Confidence too low"],
         FnResponse.error "Confidence too low for transaction"))
    ∧ (∀ a2 : ExecArgs, ¬ a2.overall_confidence < mkRat 7 10 →
        ((handleExecuteTransaction s a2).1).transactionExecuted = true
        ∧ (handleExecuteTransaction s a2).2.2 =
            FnResponse.execSuccess "Transaction prepared and ready for user confirmation"
              s.currentState.personData a2.amount a2.verbal_confirmation_quote
              a2.overall_confidence) := by
  constructor
  · intro h5
    simp [handleExecuteTransaction, h1, h2, h3, h4, h5]
  · intro a2 h5
    have hA : execAcceptedB s a2 = true := by
      simp [execAcceptedB, readyB, h1, h2, h3, h4, h5]
    rw [exec_eq_accepted s a2 hA]
    exact ⟨rfl, rfl⟩

/-- Witness for C7: confidence 0.5 is blocked on a ready session; 0.9 fires. -/
theorem confidence_threshold_atomic_witness :
    handleExecuteTransaction sReadyDemo aExecLowConf =
      (sReadyDemo, [Emit.transactionBlocked "Confidence too low"],
       FnResponse.error "Confidence too low for transaction")
    ∧ ((handleExecuteTransaction sReadyDemo aExecStd).1).transactionExecuted = true := by
  have h := confidence_threshold_atomic sReadyDemo aExecLowConf (by decide) (by decide)
    (by decide) (by decide)
  refine ⟨h.1 (by decide), ?_⟩
  have h2 := confidence_threshold_atomic sReadyDemo aExecStd (by decide) (by decide)
    (by decide) (by decide)
  exact (h2.2 aExecStd (by decide)).1

/-- C10: when the description matches no enrolled name (case-insensitively) and
the enrolled snapshot is non-empty, `handleIdentifyPerson` identifies the first
enrolled person and emits `person:identified` for them; moreover, for every
session and arguments, `person:unknown` is emitted exactly when the enrolled
snapshot is empty. -/
theorem implicit_first_enrolled_fallback (s : Session) (a : IdentifyArgs)
    (p0 : Person) (rest : List Person)
    (hE : s.enrolledPeople = p0 :: rest)
    (hNo : ∀ p ∈ s.enrolledPeople, nameMatches a.description p = false) :
    handleIdentifyPerson s a =
      ({ s with currentState :=
            { s.currentState with personIdentified := true, personData := some p0 } },
       [Emit.personIdentifiedEv p0.name p0.wallet_address a.confidence],
       FnResponse.identifiedOk p0.name p0.wallet_address)
    ∧ (∀ (s2 : Session) (a2 : IdentifyArgs),
        ((handleIdentifyPerson s2 a2).2.1.any isPersonUnknownEmit = true ↔
          s2.enrolledPeople = [])) := by
  constructor
  · have hfind : findPersonByDescription s.enrolledPeople a.description = some p0 := by
      unfold findPersonByDescription
      rw [find?_none_of_all_false _ _ hNo, hE]
      rfl
    exact identify_eq_found s a p0 hfind
  · intro s2 a2
    cases hf : findPersonByDescription s2.enrolledPeople a2.description with
    | some q =>
        rw [identify_eq_found s2 a2 q hf]
        have hne : s2.enrolledPeople ≠ [] := by
          intro hnil
          rw [hnil, find_nil] at hf
          simp at hf
        simp [isPersonUnknownEmit, hne]
    | none =>
        rw [identify_eq_none s2 a2 hf]
        have hnil := find_none_imp_nil _ _ hf
        simp [isPersonUnknownEmit, hnil]

/-- Witness for C10: description "carol" matches neither alice nor bob, so the
first enrolled person (alice) is identified. -/
theorem implicit_first_enrolled_fallback_witness :
    (∀ p ∈ (freshSession [alice, bobp]).enrolledPeople, nameMatches "carol" p = false)
    ∧ (handleIdentifyPerson (freshSession [alice, bobp]) aIdCarol).2.2 =
        FnResponse.identifiedOk "alice" "0xAAA"
    ∧ ((handleIdentifyPerson (freshSession [alice, bobp]) aIdCarol).2.1.any
        isPersonUnknownEmit = true ↔ (freshSession [alice, bobp]).enrolledPeople = []) := by
  have h := implicit_first_enrolled_fallback (freshSession [alice, bobp]) aIdCarol alice
    [bobp] rfl (by decide)
  refine ⟨by decide, ?_, h.2 (freshSession [alice, bobp]) aIdCarol⟩
  rw [h.1]
  rfl

/-- C8 (amended): `checkTransactionReady` has no edge detection: every
verbal/handshake event processed while the person is identified, the verbal
agreement holds and the transaction has not fired emits its own
`transaction:conditions-met`, so n consecutive `handshake_active = true` events
produce n notifications during one contiguous ready interval (readiness is true
from the first such event on). -/
theorem repeated_conditions_met (s : Session) (aH : HandshakeArgs) (n : ℕ)
    (hP : s.currentState.personIdentified = true)
    (hV : s.currentState.verbalAgreement = true)
    (hF : s.transactionExecuted = false)
    (hA : aH.handshake_active = true) :
    countConditionsMet
        (runEvents s (List.replicate n (Event.confirmHandshake aH))).2 = n
    ∧ (n = 0 ∨
        ((runEvents s (List.replicate n (Event.confirmHandshake aH))).1).currentState.readyForTransaction = true) := by
  induction n generalizing s with
  | zero => exact ⟨rfl, Or.inl rfl⟩
  | succ k ih =>
      obtain ⟨ihc, ihr⟩ := ih (afterHandshake s aH) hP hV hF
      rw [List.replicate_succ]
      have hrunTrace :
          (runEvents s (Event.confirmHandshake aH ::
            List.replicate k (Event.confirmHandshake aH))).2
          = (handleConfirmHandshake s aH).2.1 ++
            (runEvents (handleConfirmHandshake s aH).1
              (List.replicate k (Event.confirmHandshake aH))).2 := rfl
      have hrunState :
          (runEvents s (Event.confirmHandshake aH ::
            List.replicate k (Event.confirmHandshake aH))).1
          = (runEvents (handleConfirmHandshake s aH).1
              (List.replicate k (Event.confirmHandshake aH))).1 := rfl
      rw [handshake_step_ready s aH hP hV hF hA] at hrunTrace hrunState
      constructor
      · rw [hrunTrace, countConditionsMet_append, ihc]
        exact Nat.add_comm 1 k
      · right
        rw [hrunState]
        cases k with
        | zero =>
            show (afterHandshake s aH).currentState.readyForTransaction = true
            simp [afterHandshake, hP, hV, hA]
        | succ k2 =>
            rcases ihr with h0 | hready
            · exact absurd h0 (Nat.succ_ne_zero k2)
            · exact hready

/-- Witness for C8: two consecutive handshake events on a ready session emit
two conditions-met notifications. -/
theorem repeated_conditions_met_witness :
    countConditionsMet
        (runEvents sReadyDemo (List.replicate 2 (Event.confirmHandshake aShakeYes))).2 = 2
    ∧ ((runEvents sReadyDemo (List.replicate 2 (Event.confirmHandshake aShakeYes))).1).currentState.readyForTransaction = true := by
  have h := repeated_conditions_met sReadyDemo aShakeYes 2 (by decide) (by decide)
    (by decide) (by decide)
  refine ⟨h.1, ?_⟩
  rcases h.2 with h0 | hready
  · exact absurd h0 (by decide)
  · exact hready

/-- C8 counterexample: along identify, verbal, handshake, handshake the ready
flag is true from the third event on (never flipping back to false), yet
`transaction:conditions-met` is emitted twice — contradicting at-most-once per
contiguous ready interval. -/
theorem duplicate_conditions_met_cex :
    countConditionsMet (runEvents (freshSession [alice])
        [evIdentifyAlice, evVerbalYes, evHandshakeYes, evHandshakeYes]).2 = 2
    ∧ ((runEvents (freshSession [alice]) [evIdentifyAlice, evVerbalYes, evHandshakeYes]).1).currentState.readyForTransaction = true
    ∧ ((runEvents (freshSession [alice]) [evIdentifyAlice, evVerbalYes, evHandshakeYes, evHandshakeYes]).1).currentState.readyForTransaction = true := by decide

/-- C9 (amended): `handleLiveMessage` dispatches only the first function call of
a toolCall message and sends back exactly one response (the one for that first
call); the state reflects only the first call; a dispatched unknown function
name is answered with an error response and leaves the session unchanged. -/
theorem first_call_only_response (s : Session) (c : Event) (cs : List Event)
    (nm : String) :
    (handleLiveMessage s (c :: cs)).1 = (handleFunctionCall s c).1
    ∧ (handleLiveMessage s (c :: cs)).2.2 = [(handleFunctionCall s c).2.2]
    ∧ (handleLiveMessage s (c :: cs)).2.2.length = 1
    ∧ handleFunctionCall s (Event.unknownFunction nm) =
        (s, [], FnResponse.error "Unknown function") :=
  ⟨rfl, rfl, rfl, rfl⟩

/-- C9 counterexample: a toolCall message carrying two function calls gets only
one response back, and the second call (an active handshake) is never applied
to the session. -/
theorem only_first_call_dispatched_cex :
    ((handleLiveMessage (freshSession [alice])
        [Event.updateStatus "v" "a" "p", evHandshakeYes]).2.2).length = 1
    ∧ ([Event.updateStatus "v" "a" "p", evHandshakeYes] : List Event).length = 2
    ∧ ((handleLiveMessage (freshSession [alice]) [Event.updateStatus "v" "a" "p", evHandshakeYes]).1).currentState.handshakeActive = false := by decide

/-- C3 counterexample: applying one verbal(agreed), one handshake(active) and
one successful identification to a fresh session, with the identification last,
leaves all three condition flags true but `readyForTransaction` false and emits
no conditions-met notification — the identification handler does not recompute
readiness. -/
theorem identify_last_not_ready_cex :
    ((runEvents (freshSession [alice]) [evVerbalYes, evHandshakeYes, evIdentifyAlice]).1).currentState.personIdentified = true
    ∧ ((runEvents (freshSession [alice]) [evVerbalYes, evHandshakeYes, evIdentifyAlice]).1).currentState.verbalAgreement = true
    ∧ ((runEvents (freshSession [alice]) [evVerbalYes, evHandshakeYes, evIdentifyAlice]).1).currentState.handshakeActive = true
    ∧ ((runEvents (freshSession [alice]) [evVerbalYes, evHandshakeYes, evIdentifyAlice]).1).currentState.readyForTransaction = false
    ∧ countConditionsMet (runEvents (freshSession [alice]) [evVerbalYes, evHandshakeYes, evIdentifyAlice]).2 = 0 := by
  decide

/-- C3 (amended): `handleIdentifyPerson` never recomputes `readyForTransaction`
(it preserves the stored flag on every call), while the verbal and handshake
handlers do; consequently, for the six orderings of one successful
identification, one verbal(agreed) and one handshake(active) on a fresh
session, the three condition flags (readyB) are all true at the end, but the
stored `readyForTransaction` is true exactly in the four orderings whose last
event is not the identification. -/
theorem readiness_recompute_asymmetry (enrolled : List Person) (p : Person)
    (aI : IdentifyArgs) (aV : VerbalArgs) (aH : HandshakeArgs)
    (hI : findPersonByDescription enrolled aI.description = some p)
    (hV : aV.agreed = true) (hH : aH.handshake_active = true) :
    (∀ (s2 : Session) (a2 : IdentifyArgs),
      ((handleIdentifyPerson s2 a2).1).currentState.readyForTransaction =
        s2.currentState.readyForTransaction)
    ∧ (readyB ((runEvents (freshSession enrolled) [Event.identifyPerson aI, Event.confirmVerbalAgreement aV, Event.confirmHandshake aH]).1) = true
        ∧ ((runEvents (freshSession enrolled) [Event.identifyPerson aI, Event.confirmVerbalAgreement aV, Event.confirmHandshake aH]).1).currentState.readyForTransaction = true)
    ∧ (readyB ((runEvents (freshSession enrolled) [Event.identifyPerson aI, Event.confirmHandshake aH, Event.confirmVerbalAgreement aV]).1) = true
        ∧ ((runEvents (freshSession enrolled) [Event.identifyPerson aI, Event.confirmHandshake aH, Event.confirmVerbalAgreement aV]).1).currentState.readyForTransaction = true)
    ∧ (readyB ((runEvents (freshSession enrolled) [Event.confirmVerbalAgreement aV, Event.identifyPerson aI, Event.confirmHandshake aH]).1) = true
        ∧ ((runEvents (freshSession enrolled) [Event.confirmVerbalAgreement aV, Event.identifyPerson aI, Event.confirmHandshake aH]).1).currentState.readyForTransaction = true)
    ∧ (readyB ((runEvents (freshSession enrolled) [Event.confirmHandshake aH, Event.identifyPerson aI, Event.confirmVerbalAgreement aV]).1) = true
        ∧ ((runEvents (freshSession enrolled) [Event.confirmHandshake aH, Event.identifyPerson aI, Event.confirmVerbalAgreement aV]).1).currentState.readyForTransaction = true)
    ∧ (readyB ((runEvents (freshSession enrolled) [Event.confirmVerbalAgreement aV, Event.confirmHandshake aH, Event.identifyPerson aI]).1) = true
        ∧ ((runEvents (freshSession enrolled) [Event.confirmVerbalAgreement aV, Event.confirmHandshake aH, Event.identifyPerson aI]).1).currentState.readyForTransaction = false)
    ∧ (readyB ((runEvents (freshSession enrolled) [Event.confirmHandshake aH, Event.confirmVerbalAgreement aV, Event.identifyPerson aI]).1) = true
        ∧ ((runEvents (freshSession enrolled) [Event.confirmHandshake aH, Event.confirmVerbalAgreement aV, Event.identifyPerson aI]).1).currentState.readyForTransaction = false) := by
  have hId : ∀ t : Session, t.enrolledPeople = enrolled →
      (handleFunctionCall t (Event.identifyPerson aI)).1 =
        { t with currentState :=
            { t.currentState with personIdentified := true, personData := some p } } := by
    intro t ht
    simp only [handleFunctionCall]
    rw [identify_eq_found t aI p (by rw [ht]; exact hI)]
  have hVb : ∀ t : Session,
      (handleFunctionCall t (Event.confirmVerbalAgreement aV)).1 = afterVerbal t aV := by
    intro t
    simp only [handleFunctionCall, verbal_eq]
  have hHs : ∀ t : Session,
      (handleFunctionCall t (Event.confirmHandshake aH)).1 = afterHandshake t aH := by
    intro t
    simp only [handleFunctionCall, handshake_eq]
  refine ⟨?_, ?_, ?_, ?_, ?_, ?_, ?_⟩
  · intro s2 a2
    cases hf : findPersonByDescription s2.enrolledPeople a2.description
    · rw [identify_eq_none s2 a2 hf]
    · rw [identify_eq_found s2 a2 _ hf]
  · simp only [runEvents]
    rw [hId _ rfl, hVb, hHs]
    constructor
    · simp [readyB, afterVerbal, afterHandshake, hV, hH]
    · simp [afterVerbal, afterHandshake, hV, hH]
  · simp only [runEvents]
    rw [hId _ rfl, hHs, hVb]
    constructor
    · simp [readyB, afterVerbal, afterHandshake, hV, hH]
    · simp [afterVerbal, afterHandshake, hV, hH]
  · simp only [runEvents]
    rw [hVb, hId _ rfl, hHs]
    constructor
    · simp [readyB, afterVerbal, afterHandshake, hV, hH]
    · simp [afterVerbal, afterHandshake, hV, hH]
  · simp only [runEvents]
    rw [hHs, hId _ rfl, hVb]
    constructor
    · simp [readyB, afterVerbal, afterHandshake, hV, hH]
    · simp [afterVerbal, afterHandshake, hV, hH]
  · simp only [runEvents]
    rw [hVb, hHs, hId _ rfl]
    constructor
    · simp [readyB, afterVerbal, afterHandshake, hV, hH]
    · simp [afterVerbal, afterHandshake, freshSession, initialState]
  · simp only [runEvents]
    rw [hHs, hVb, hId _ rfl]
    constructor
    · simp [readyB, afterVerbal, afterHandshake, hV, hH]
    · simp [afterVerbal, afterHandshake, freshSession, initialState]

/-- Witness for the amended C3 with alice enrolled: identification-first order
yields readiness true; identification-last order leaves it false. -/
theorem readiness_recompute_asymmetry_witness :
    findPersonByDescription [alice] aIdAlice.description = some alice
    ∧ ((runEvents (freshSession [alice]) [evIdentifyAlice, evVerbalYes, evHandshakeYes]).1).currentState.readyForTransaction = true
    ∧ ((runEvents (freshSession [alice]) [evVerbalYes, evHandshakeYes, evIdentifyAlice]).1).currentState.readyForTransaction = false := by
  have h := readiness_recompute_asymmetry [alice] alice aIdAlice aVerbalYes aShakeYes
    (by decide) rfl rfl
  exact ⟨by decide, h.2.1.2, h.2.2.2.2.2.1.2⟩

/-- C5 (amended): the payment gate never lets an out-of-bounds amount proceed to
the Payment Executor; whenever the request carries a nonzero amount and a
recipient field, an out-of-bounds amount is rejected with the response carrying
the violated bound; requests failing the required-field checks are rejected
earlier with a required-field error instead. -/
theorem payment_gate_bounds (r : ExecRequest) :
    (∀ w amt, paymentGateDecision r = GateDecision.proceed w amt →
      MIN_TRANSACTION_AMOUNT ≤ amt ∧ amt ≤ MAX_TRANSACTION_AMOUNT)
    ∧ (∀ q : ℚ, r.amount = some q → q ≠ 0 →
        (truthyStr r.to_wallet || truthyStr r.to_person_id) = true →
        (MAX_TRANSACTION_AMOUNT < q →
          paymentGateDecision r =
            GateDecision.reject (GateReject.amountTooHigh MAX_TRANSACTION_AMOUNT q))
        ∧ (q < MIN_TRANSACTION_AMOUNT →
          paymentGateDecision r =
            GateDecision.reject (GateReject.amountTooLow MIN_TRANSACTION_AMOUNT q))) := by
  constructor
  · intro w amt h
    unfold paymentGateDecision at h
    split_ifs at h with h1 h2 h3 h4
    rcases hw : r.to_wallet with _ | w2
    · rw [hw] at h; simp at h
    · rw [hw] at h
      dsimp only at h
      split_ifs at h with h5
      injection h with hww hamt
      subst hamt
      push_neg at h3 h4
      exact ⟨h4, h3⟩
  · intro q hq hq0 hrec
    have hta : truthyAmount r.amount = true := by
      rw [hq]
      simp [truthyAmount, hq0]
    have hrecF : (!truthyStr r.to_wallet && !truthyStr r.to_person_id) = false := by
      cases hA : truthyStr r.to_wallet <;> cases hB : truthyStr r.to_person_id <;>
        simp_all
    have hgetd : r.amount.getD 0 = q := by rw [hq]; rfl
    constructor
    · intro hgt
      unfold paymentGateDecision
      rw [hta, hrecF, hgetd]
      simp [hgt]
    · intro hlt
      have hngt : ¬ MAX_TRANSACTION_AMOUNT < q := by
        have hmm : MIN_TRANSACTION_AMOUNT < MAX_TRANSACTION_AMOUNT := by decide
        exact fun hgt => lt_asymm (lt_trans hlt hmm) hgt
      unfold paymentGateDecision
      rw [hta, hrecF, hgetd]
      simp [hngt, hlt]

/-- Witness for C5 at the amount $5.00 against the $0.10 maximum. -/
theorem payment_gate_bounds_witness :
    paymentGateDecision reqBigAmount =
      GateDecision.reject (GateReject.amountTooHigh MAX_TRANSACTION_AMOUNT 5)
    ∧ MAX_TRANSACTION_AMOUNT < 5 := by
  have h := payment_gate_bounds reqBigAmount
  exact ⟨(h.2 5 rfl (by decide) (by decide)).1 (by decide), by decide⟩

/-- C5 counterexample: `amount = 0` is below the $0.01 minimum, yet the gate
rejects it with the required-field error `amountRequired` (JS falsiness of 0),
whose response does not reference the violated bound. -/
theorem zero_amount_not_bounds_rejected_cex :
    (0:ℚ) < MIN_TRANSACTION_AMOUNT
    ∧ paymentGateDecision reqZeroAmount = GateDecision.reject GateReject.amountRequired
    ∧ GateReject.amountRequired ≠
        GateReject.amountTooLow MIN_TRANSACTION_AMOUNT 0 := by decide

end YCHack
